import Mathlib

/-!
Shallow embedding of the row-enrichment pipeline of `src/src/venezuela.py`
(purchase-order debt report).  Cells of the spreadsheet are modelled by
`Cell` (null / numeric / text), dates by `Date` (year, month, day), monetary
amounts by rationals, and every per-row transformation of the source is a
total Lean function whose `none` results correspond to the Python functions
returning `None` (including their `except` branches).
-/

namespace Venezuela

/-- A calendar date as pandas exposes it to the pipeline (time of day is
never used by the transformations). -/
structure Date where
  year : Int
  month : Nat
  day : Nat
deriving DecidableEq

/-- Numeric key giving the chronological order of dates
(`'%Y-%m-%d'` string order / timestamp order at day granularity). -/
def Date.key (d : Date) : Int :=
  d.year * 10000 + (d.month : Int) * 100 + (d.day : Int)

/-- A spreadsheet cell: missing (`NaN`/`None`), a number, or a text value. -/
inductive Cell where
  | null : Cell
  | num : ℚ → Cell
  | text : String → Cell
deriving DecidableEq

/-- Model of `pd.isna` on a cell. -/
def Cell.isna : Cell → Bool
  | .null => true
  | _ => false

/-- Python `cell == 0` (only a numeric zero compares equal to `0`). -/
def Cell.pyEqZero : Cell → Bool
  | .num q => decide (q = 0)
  | _ => false

/-- Model of `astype(str)` / `str(...)` on a cell; pandas renders a missing value
as the string `"nan"`. -/
def pyStr : Cell → String
  | .null => "nan"
  | .num q => toString q
  | .text s => s

/-- Wrap an optional rational back into a cell (a column written from a
Python function returning a float or `None`). -/
def Cell.ofOption : Option ℚ → Cell
  | none => .null
  | some q => .num q

/-- Python `str.upper()` (ASCII letters, the only ones the schema uses). -/
def pyUpper (s : String) : String :=
  ⟨s.data.map Char.toUpper⟩

/-- Python `str.strip()`: drop leading and trailing whitespace. -/
def pyStrip (s : String) : String :=
  ⟨((s.data.dropWhile Char.isWhitespace).reverse.dropWhile
      Char.isWhitespace).reverse⟩

/-- Value of a decimal digit character. -/
def digitVal (c : Char) : Option Nat :=
  if c.isDigit then some (c.toNat - 48) else none

/-- Parse a nonempty all-digit character list as a natural number. -/
def parseNatDigits (l : List Char) : Option Nat :=
  match l with
  | [] => none
  | _ => l.foldl (fun acc c => acc.bind fun n => (digitVal c).map fun d => n * 10 + d)
      (some 0)

/-- Parse a decimal literal (optional sign, optional fractional part);
model of what `pd.to_numeric(·, errors='coerce')` accepts on strings. -/
def parseRat (s : String) : Option ℚ :=
  let t := pyStrip s
  let core := if t.startsWith "-" then t.drop 1 else t
  let sgn : ℚ := if t.startsWith "-" then -1 else 1
  match core.splitOn "." with
  | [intPart] => (parseNatDigits intPart.data).map fun n => sgn * (n : ℚ)
  | [intPart, fracPart] =>
    match parseNatDigits intPart.data, parseNatDigits fracPart.data with
    | some n, some f =>
        some (sgn * ((n : ℚ) + (f : ℚ) / (10 : ℚ) ^ fracPart.length))
    | _, _ => none
  | _ => none

/-- Model of `pd.to_numeric` with coercion: numbers pass through, parseable
text is parsed, everything else coerces to `NaN` (`none`). -/
def Cell.toNumeric : Cell → Option ℚ
  | .null => none
  | .num q => some q
  | .text s => parseRat s

/-- Model of `str(divisa).upper().strip() if not pd.isna(divisa) else ""`
(normalisation of the currency cell used throughout the source). -/
def normDivisa (divisa : Option String) : String :=
  match divisa with
  | none => ""
  | some s => pyStrip (pyUpper s)

/-- Embedding of `calcular_ano_fiscal` (venezuela.py:512-537): fiscal year string from
the order date; `None` for a missing/unparseable date. -/
def calcular_ano_fiscal (fechaOrden : Option Date) : Option String :=
  match fechaOrden with
  | none => none
  | some f =>
    if f.month > 8 then
      some (toString f.year ++ "-" ++ toString (f.year + 1))
    else
      some (toString (f.year - 1) ++ "-" ++ toString f.year)

/-- Embedding of `calcular_monto_oc` (venezuela.py:579-598):
`MONTO OC = PRICE_OVERRIDE * IMPORTE`, null-propagating. -/
def calcular_monto_oc (priceOverride importe : Cell) : Option ℚ :=
  if priceOverride.isna || importe.isna then none
  else
    match priceOverride.toNumeric, importe.toNumeric with
    | some p, some i => some (p * i)
    | _, _ => none

/-- Embedding of `calcular_monto_oc_asociado` (venezuela.py:690-709):
`MONTO OC ASOCIADO = IMPORTE_ASOCIADO * PRICE_OVERRIDE`, null-propagating. -/
def calcular_monto_oc_asociado (priceOverride importeAsociado : Cell) : Option ℚ :=
  if priceOverride.isna || importeAsociado.isna then none
  else
    match priceOverride.toNumeric, importeAsociado.toNumeric with
    | some p, some i => some (i * p)
    | _, _ => none

/-- Embedding of `calcular_monto_oc_usd` (venezuela.py:603-644): convert `MONTO OC` to
USD.  USD passes through unchanged; VES/COP/EUR divide by the rate unless
the rate is null, zero or non-numeric; unrecognised currencies divide on a
best-effort basis when a usable non-zero rate exists, else null. -/
def calcular_monto_oc_usd (montoOC : Option ℚ) (divisa : Option String)
    (tasa : Cell) : Option ℚ :=
  match montoOC with
  | none => none
  | some m =>
    let du := normDivisa divisa
    if du = "USD" then some m
    else if du = "VES" ∨ du = "COP" ∨ du = "EUR" then
      if tasa.isna || tasa.pyEqZero then none
      else
        match tasa.toNumeric with
        | none => none
        | some tn => if tn = 0 then none else some (m / tn)
    else
      if !tasa.isna && !tasa.pyEqZero then
        match tasa.toNumeric with
        | none => none
        | some tn => if tn = 0 then none else some (m / tn)
      else none

/-- Embedding of `calcular_monto_oc_asociado_usd` (venezuela.py:714-755): identical
conversion logic applied to `MONTO OC ASOCIADO`. -/
def calcular_monto_oc_asociado_usd (montoOCAsociado : Option ℚ)
    (divisa : Option String) (tasa : Cell) : Option ℚ :=
  match montoOCAsociado with
  | none => none
  | some m =>
    let du := normDivisa divisa
    if du = "USD" then some m
    else if du = "VES" ∨ du = "COP" ∨ du = "EUR" then
      if tasa.isna || tasa.pyEqZero then none
      else
        match tasa.toNumeric with
        | none => none
        | some tn => if tn = 0 then none else some (m / tn)
    else
      if !tasa.isna && !tasa.pyEqZero then
        match tasa.toNumeric with
        | none => none
        | some tn => if tn = 0 then none else some (m / tn)
      else none

/-- Embedding of `calcular_monto_real_deuda` (venezuela.py:795-818):
`MONTO REAL DEUDA = MONTO OC USD - MONTO OC ASOCIADO USD`, with a missing
operand treated as `0`, except that two missing operands give `None`.
(In the pipeline both input columns hold numbers or nulls.) -/
def calcular_monto_real_deuda (montoOCUSD montoOCAsociadoUSD : Option ℚ) :
    Option ℚ :=
  match montoOCUSD, montoOCAsociadoUSD with
  | none, none => none
  | a, b => some (a.getD 0 - b.getD 0)

/-- Which of the lookup columns `tasa_VES` / `tasa_COP` / `tasa_EUR` /
`tasa_DEFAULT` exist in the rate lookup table (`columnas_tasa`,
venezuela.py:296-318). -/
structure RateCols where
  hasVES : Bool
  hasCOP : Bool
  hasEUR : Bool
  hasDEFAULT : Bool
deriving DecidableEq

/-- Key of a rate column of the lookup table. -/
inductive RateKey where
  | ves : RateKey
  | cop : RateKey
  | eur : RateKey
  | dflt : RateKey
deriving DecidableEq

/-- Column membership test (`col_tasa_key in df_lookup.columns`). -/
def RateCols.has (c : RateCols) : RateKey → Bool
  | .ves => c.hasVES
  | .cop => c.hasCOP
  | .eur => c.hasEUR
  | .dflt => c.hasDEFAULT

/-- The column set of an empty lookup DataFrame. -/
def noRateCols : RateCols := ⟨false, false, false, false⟩

/-- One row of the rate lookup table built in `agregar_columna_tasa`
(venezuela.py:329-346): a parsed date plus the rate cells. -/
structure LookupRow where
  fecha : Date
  tasaVES : Option ℚ
  tasaCOP : Option ℚ
  tasaEUR : Option ℚ
  tasaDEFAULT : Option ℚ
deriving DecidableEq

/-- Read a rate column of a lookup row. -/
def LookupRow.get (r : LookupRow) : RateKey → Option ℚ
  | .ves => r.tasaVES
  | .cop => r.tasaCOP
  | .eur => r.tasaEUR
  | .dflt => r.tasaDEFAULT

/-- One raw record of the rate spreadsheet: a possibly unparseable date
(`none` models `pd.to_datetime(·, errors='coerce')` giving `NaT`) plus the
rate cells. -/
structure RateRecord where
  fecha : Option Date
  tasaVES : Option ℚ
  tasaCOP : Option ℚ
  tasaEUR : Option ℚ
  tasaDEFAULT : Option ℚ

/-- Build of the lookup table (venezuela.py:322-346): parse the dates,
sort ascending by date (stably, as pandas `sort_values`), and discard the
rows without a parseable date. -/
def buildLookup (records : List RateRecord) : List LookupRow :=
  (records.filterMap fun rec =>
      rec.fecha.map fun d =>
        LookupRow.mk d rec.tasaVES rec.tasaCOP rec.tasaEUR rec.tasaDEFAULT
    ).insertionSort fun a b => a.fecha.key ≤ b.fecha.key

/-- Choice of the rate column for a currency (venezuela.py:357-381):
VES/COP/EUR select their own column; any other currency falls back to the
first existing column in the priority order VES, COP, EUR, DEFAULT. -/
def colTasaKey (lcols : RateCols) (divisa : Option String) : Option RateKey :=
  let du := normDivisa divisa
  if du = "VES" then some .ves
  else if du = "COP" then some .cop
  else if du = "EUR" then some .eur
  else if lcols.hasVES then some .ves
  else if lcols.hasCOP then some .cop
  else if lcols.hasEUR then some .eur
  else if lcols.hasDEFAULT then some .dflt
  else none

/-- Prior-date fallback (venezuela.py:390-401): last lookup row whose date
is ≤ the order date; its rate in column `k` if the column exists and the
value is non-null, else `None`. -/
def buscarPrior (lcols : RateCols) (lookup : List LookupRow) (d : Date)
    (k : RateKey) : Option ℚ :=
  match (lookup.filter fun r => decide (r.fecha.key ≤ d.key)).getLast? with
  | some r => if lcols.has k then r.get k else none
  | none => none

/-- Effective column set of `df_lookup`: an empty lookup DataFrame has no
columns at all, otherwise the columns found in the rate file. -/
def lookupCols (cols : RateCols) (lookup : List LookupRow) : RateCols :=
  if lookup.isEmpty then noRateCols else cols

/-- Embedding of `buscar_tasa_con_fallback` (venezuela.py:349-404): resolve the rate for
an order's (date, currency).  Null/unparseable date gives `None`; an exact
date match with a non-null rate wins; otherwise the closest prior date is
used; otherwise `None`. -/
def buscar_tasa_con_fallback (cols : RateCols) (lookup : List LookupRow)
    (fechaOrden : Option Date) (divisa : Option String) : Option ℚ :=
  match fechaOrden with
  | none => none
  | some d =>
    match colTasaKey (lookupCols cols lookup) divisa with
    | none => none
    | some k =>
      match lookup.filter fun r => decide (r.fecha = d) with
      | r :: _ =>
        if (lookupCols cols lookup).has k then
          match r.get k with
          | some t => some t
          | none => buscarPrior (lookupCols cols lookup) lookup d k
        else buscarPrior (lookupCols cols lookup) lookup d k
      | [] => buscarPrior (lookupCols cols lookup) lookup d k

/-- One purchase-order row with its source cells and the derived columns
(defaulted to null before their stage runs). -/
structure Row where
  divisa : Option String
  priceOverride : Cell
  importe : Cell
  importeAsociado : Cell
  fechaOrden : Option Date
  solicitante : Option String
  estadoCierre : Cell
  anoFiscal : Option String := none
  tasa : Cell := Cell.null
  area : Option String := none
  montoOC : Option ℚ := none
  montoOCUSD : Option ℚ := none
  montoOCAsociado : Option ℚ := none
  montoOCAsociadoUSD : Option ℚ := none
  montoRealDeuda : Option ℚ := none
deriving DecidableEq

/-- The source (non-derived) cells of a row, used to state that enrichment
stages touch only derived columns and preserve row order. -/
def Row.source (r : Row) :
    Option String × Cell × Cell × Cell × Option Date × Option String × Cell :=
  (r.divisa, r.priceOverride, r.importe, r.importeAsociado, r.fechaOrden,
    r.solicitante, r.estadoCierre)

/-- An orders DataFrame: which columns are present, plus the row data. -/
structure Table where
  hasDivisa : Bool
  hasFechaOrden : Bool
  hasSolicitante : Bool
  hasEstadoCierre : Bool
  hasPriceOverride : Bool
  hasImporte : Bool
  hasImporteAsociado : Bool
  hasTasa : Bool
  hasMontoOCUSD : Bool
  hasMontoOCAsociadoUSD : Bool
  rows : List Row
deriving DecidableEq

/-- Normalised closure state (`astype(str).str.upper().str.strip()`,
venezuela.py:1230). -/
def normCierre (c : Cell) : String := pyStrip (pyUpper (pyStr c))

/-- Keep-predicate of the closed-order filter: the normalised closure
state differs from `"CERRADO"`. -/
def keepRow (r : Row) : Bool := normCierre r.estadoCierre != "CERRADO"

/-- Embedding of `filtrar_cerrados` (venezuela.py:1216-1236): raises when the
`ESTADO_CIERRE` column is absent, else drops the rows whose normalised
closure state equals `"CERRADO"`, keeping the rest in order. -/
def filtrar_cerrados (t : Table) : Except String Table :=
  if t.hasEstadoCierre then
    Except.ok { t with rows := t.rows.filter keepRow }
  else Except.error "La columna ESTADO_CIERRE no existe en el DataFrame"

/-- Per-row lambda of the fiscal-year stage (venezuela.py:539). -/
def fila_ano_fiscal (r : Row) : Row :=
  { r with anoFiscal := calcular_ano_fiscal r.fechaOrden }

/-- Embedding of `agregar_ano_fiscal` (venezuela.py:491-545): raises when `FECHA_ORDEN`
is absent, else adds the fiscal-year column row-wise. -/
def agregar_ano_fiscal (t : Table) : Except String Table :=
  if t.hasFechaOrden then
    Except.ok { t with rows := t.rows.map fila_ano_fiscal }
  else Except.error "La columna FECHA_ORDEN no existe en el DataFrame"

/-- Per-row write of a null `TASA` (venezuela.py:412). -/
def fila_tasa_nula (r : Row) : Row := { r with tasa := Cell.null }

/-- Per-row lambda of the rate stage (venezuela.py:416-419). -/
def fila_tasa (cols : RateCols) (lookup : List LookupRow) (r : Row) : Row :=
  { r with
    tasa := Cell.ofOption
      (buscar_tasa_con_fallback cols lookup r.fechaOrden r.divisa) }

/-- Embedding of `agregar_columna_tasa` (venezuela.py:268-425), orders side: a missing
`DIVISA` column is tolerated (all-null `TASA`, no error); otherwise the
rate is resolved per row from (order date, currency); reading the
`FECHA_ORDEN` cells of a table without that column would raise. -/
def agregar_columna_tasa (cols : RateCols) (lookup : List LookupRow)
    (t : Table) : Except String Table :=
  if t.hasDivisa = false then
    Except.ok { t with
      hasTasa := true,
      rows := t.rows.map fila_tasa_nula }
  else if t.hasFechaOrden = false then
    Except.error "KeyError: FECHA_ORDEN"
  else
    Except.ok { t with
      hasTasa := true,
      rows := t.rows.map (fila_tasa cols lookup) }

/-- Embedding of `buscar_area` (venezuela.py:1196-1205): look the normalised requester
up in the area directory. -/
def buscar_area (areasDict : List (String × String))
    (solicitante : Option String) : Option String :=
  match solicitante with
  | none => none
  | some s => (areasDict.find? fun p => p.1 == pyStrip (pyUpper s)).map
      Prod.snd

/-- Per-row write of a null `AREA` (venezuela.py:1181, 1190). -/
def fila_area_nula (r : Row) : Row := { r with area := none }

/-- Per-row lambda of the area stage (venezuela.py:1207). -/
def fila_area (areasDict : List (String × String)) (r : Row) : Row :=
  { r with area := buscar_area areasDict r.solicitante }

/-- Embedding of `agregar_columna_area` (venezuela.py:1157-1213): raises when the
`SOLICITANTE` column is absent; an empty/unavailable directory degrades to
an all-null `AREA` column; otherwise the directory is consulted per row. -/
def agregar_columna_area (areasDict : List (String × String)) (t : Table) :
    Except String Table :=
  if t.hasSolicitante then
    if areasDict.isEmpty then
      Except.ok { t with rows := t.rows.map fila_area_nula }
    else
      Except.ok { t with rows := t.rows.map (fila_area areasDict) }
  else Except.error "La columna SOLICITANTE no existe en el DataFrame"

/-- Per-row computation of `MONTO OC` and `MONTO OC USD`
(venezuela.py:600, 646). -/
def fila_montos_oc (r : Row) : Row :=
  let m := calcular_monto_oc r.priceOverride r.importe
  { r with
    montoOC := m,
    montoOCUSD := calcular_monto_oc_usd m r.divisa r.tasa }

/-- Embedding of `agregar_montos_oc` (venezuela.py:548-656): raises when any of
`PRICE_OVERRIDE`, `IMPORTE`, `DIVISA`, `TASA` is absent, else adds
`MONTO OC` and `MONTO OC USD` row-wise. -/
def agregar_montos_oc (t : Table) : Except String Table :=
  if t.hasPriceOverride && t.hasImporte && t.hasDivisa && t.hasTasa then
    Except.ok { t with
      hasMontoOCUSD := true,
      rows := t.rows.map fila_montos_oc }
  else Except.error "Faltan las siguientes columnas (montos OC)"

/-- Per-row computation of `MONTO OC ASOCIADO` and `MONTO OC ASOCIADO USD`
(venezuela.py:711, 757). -/
def fila_montos_oc_asociado (r : Row) : Row :=
  let m := calcular_monto_oc_asociado r.priceOverride r.importeAsociado
  { r with
    montoOCAsociado := m,
    montoOCAsociadoUSD := calcular_monto_oc_asociado_usd m r.divisa r.tasa }

/-- Embedding of `agregar_montos_oc_asociado` (venezuela.py:659-767): raises when any of
`PRICE_OVERRIDE`, `IMPORTE_ASOCIADO`, `DIVISA`, `TASA` is absent, else adds
`MONTO OC ASOCIADO` and `MONTO OC ASOCIADO USD` row-wise. -/
def agregar_montos_oc_asociado (t : Table) : Except String Table :=
  if t.hasPriceOverride && t.hasImporteAsociado && t.hasDivisa && t.hasTasa
  then
    Except.ok { t with
      hasMontoOCAsociadoUSD := true,
      rows := t.rows.map fila_montos_oc_asociado }
  else Except.error "Faltan las siguientes columnas (montos OC asociado)"

/-- Per-row computation of `MONTO REAL DEUDA` (venezuela.py:820). -/
def fila_monto_real_deuda (r : Row) : Row :=
  { r with
    montoRealDeuda :=
      calcular_monto_real_deuda r.montoOCUSD r.montoOCAsociadoUSD }

/-- Embedding of `agregar_monto_real_deuda` (venezuela.py:770-828): raises when
`MONTO OC USD` or `MONTO OC ASOCIADO USD` is absent, else adds the net
debt column row-wise. -/
def agregar_monto_real_deuda (t : Table) : Except String Table :=
  if t.hasMontoOCUSD && t.hasMontoOCAsociadoUSD then
    Except.ok { t with rows := t.rows.map fila_monto_real_deuda }
  else Except.error "Faltan las siguientes columnas (monto real deuda)"

/-- The enrichment stages that run after the closed-order filter
(venezuela.py:1262-1286). -/
def etapas_post_filtro (areasDict : List (String × String))
    (cols : RateCols) (lookup : List LookupRow) (t1 : Table) :
    Except String Table := do
  let t2 ← agregar_ano_fiscal t1
  let t3 ← agregar_columna_tasa cols lookup t2
  let t4 ← agregar_columna_area areasDict t3
  let t5 ← agregar_montos_oc t4
  let t6 ← agregar_montos_oc_asociado t5
  agregar_monto_real_deuda t6

/-- The whole in-memory transformation pipeline of `procesar_archivos`
(venezuela.py:1259-1286): filter the closed orders, then enrich. -/
def procesar_enriquecimiento (areasDict : List (String × String))
    (cols : RateCols) (lookup : List LookupRow) (t : Table) :
    Except String Table := do
  let t1 ← filtrar_cerrados t
  etapas_post_filtro areasDict cols lookup t1

/-- The 16 expected order-file columns (venezuela.py:22-39). -/
def COLUMNAS_ESPERADAS : List String :=
  ["NUMERO_OC", "PROVEEDOR", "SUCURSAL", "DIVISA", "PRICE_OVERRIDE",
   "IMPORTE", "IMPORTE_RECIBIDO", "IMPORTE_ASOCIADO", "FECHA_ORDEN",
   "UNIDAD_MEDIDA", "DESCRIPCION", "CUENTA_CARGO", "SOLICITANTE",
   "ESTADO_CIERRE", "APROBADOR", "FECHA_CIERRE"]

/-- Normalised column-name set of a header. -/
def normColSet (cols : List String) : Finset String :=
  (cols.map fun c => pyStrip (pyUpper c)).toFinset

/-- The expected normalised column set. -/
def columnasEsperadasSet : Finset String := normColSet COLUMNAS_ESPERADAS

/-- Embedding of `verificar_columnas` (venezuela.py:71-96): exact set equality of the
normalised column names against the expected schema. -/
def verificar_columnas (cols : List String) : Bool :=
  decide (normColSet cols = columnasEsperadasSet)

/-- The missing columns reported on a failed validation
(venezuela.py:88). -/
def columnas_faltantes (cols : List String) : Finset String :=
  columnasEsperadasSet \ normColSet cols

/-- The unexpected columns reported on a failed validation
(venezuela.py:89). -/
def columnas_extras (cols : List String) : Finset String :=
  normColSet cols \ columnasEsperadasSet

/-- The validation gate of `leer_ordenes_compra` (venezuela.py:123-125):
a failed column check raises `ValueError`. -/
def leer_ordenes_compra_validacion (cols : List String) :
    Except String Unit :=
  if verificar_columnas cols then Except.ok ()
  else Except.error "El archivo no tiene las columnas esperadas"

/-- Load-then-process: the enrichment only runs when the schema
validation of the orders file passed. -/
def procesar_archivos (fileCols : List String)
    (areasDict : List (String × String)) (cols : RateCols)
    (lookup : List LookupRow) (t : Table) : Except String Table := do
  let _ ← leer_ordenes_compra_validacion fileCols
  procesar_enriquecimiento areasDict cols lookup t

/-- An example open order row used by the witnesses. -/
def rowEx1 : Row :=
  { divisa := some "USD", priceOverride := Cell.num 2,
    importe := Cell.num 3, importeAsociado := Cell.num 1,
    fechaOrden := some ⟨2026, 1, 5⟩, solicitante := some "ANA",
    estadoCierre := Cell.text "ABIERTO" }

/-- An example closed order row (case/whitespace variant of CERRADO). -/
def rowEx2 : Row := { rowEx1 with estadoCierre := Cell.text " Cerrado " }

/-- An example row with a missing closure state. -/
def rowEx3 : Row := { rowEx1 with estadoCierre := Cell.null }

/-- An example full-schema orders table. -/
def tableEx : Table :=
  { hasDivisa := true, hasFechaOrden := true, hasSolicitante := true,
    hasEstadoCierre := true, hasPriceOverride := true, hasImporte := true,
    hasImporteAsociado := true, hasTasa := false, hasMontoOCUSD := false,
    hasMontoOCAsociadoUSD := false, rows := [rowEx1, rowEx2, rowEx3] }

/-- The example table with the DIVISA column removed. -/
def tableSinDivisa : Table := { tableEx with hasDivisa := false }

/-- The example table after the closed-order filter. -/
def tableExFiltrado : Table := { tableEx with rows := [rowEx1, rowEx3] }

/-- Rate-file columns of the spec's worked example: only `VES/USD`. -/
def rateColsEx : RateCols := ⟨true, false, false, false⟩

/-- The spec's worked example rate records:
`[2026-01-01: 50, 2026-01-10: 55]` for VES. -/
def rateRecsEx : List RateRecord :=
  [⟨some ⟨2026, 1, 1⟩, some 50, none, none, none⟩,
   ⟨some ⟨2026, 1, 10⟩, some 55, none, none, none⟩]

end Venezuela

namespace Venezuela

/-- In a strictly date-sorted lookup list, the exact-date filter returns
precisely the unique row carrying that date. -/
theorem filter_exact_eq_singleton (L : List LookupRow) (d : Date)
    (row : LookupRow)
    (hs : L.Pairwise fun a b => a.fecha.key < b.fecha.key)
    (hmem : row ∈ L) (hd : row.fecha = d) :
    (L.filter fun r => decide (r.fecha = d)) = [row] := by
  induction L with
  | nil => cases hmem
  | cons a t ih =>
    rw [List.pairwise_cons] at hs
    obtain ⟨ha, hs'⟩ := hs
    rcases List.mem_cons.mp hmem with heq | hmem'
    · subst heq
      rw [List.filter_cons_of_pos (by simp [hd])]
      have : t.filter (fun r => decide (r.fecha = d)) = [] := by
        refine List.filter_eq_nil_iff.mpr fun b hb => ?_
        have hk := ha b hb
        simp only [decide_eq_true_eq]
        intro hbd
        rw [hd] at hk
        rw [hbd] at hk
        exact lt_irrefl _ hk
      rw [this]
    · have hlt : a.fecha.key < row.fecha.key := ha row hmem'
      have hne : ¬ (a.fecha = d) := by
        intro haeq
        rw [haeq, ← hd] at hlt
        exact lt_irrefl _ hlt
      rw [List.filter_cons_of_neg (by simpa using hne)]
      exact ih hs' hmem'

/-- In a strictly date-sorted lookup list, the last row of the
prior-date filter is the row with the latest date ≤ the order date. -/
theorem filter_prior_getLast (L : List LookupRow) (d : Date)
    (row : LookupRow)
    (hs : L.Pairwise fun a b => a.fecha.key < b.fecha.key)
    (hmem : row ∈ L) (hle : row.fecha.key ≤ d.key)
    (hmax : ∀ b ∈ L, b.fecha.key ≤ d.key → b.fecha.key ≤ row.fecha.key) :
    (L.filter fun r => decide (r.fecha.key ≤ d.key)).getLast? = some row := by
  induction L with
  | nil => cases hmem
  | cons a t ih =>
    rw [List.pairwise_cons] at hs
    obtain ⟨ha, hs'⟩ := hs
    rcases List.mem_cons.mp hmem with heq | hmem'
    · subst heq
      rw [List.filter_cons_of_pos (by simpa using hle)]
      have : t.filter (fun r => decide (r.fecha.key ≤ d.key)) = [] := by
        refine List.filter_eq_nil_iff.mpr fun b hb => ?_
        simp only [decide_eq_true_eq]
        intro hbd
        have h1 := ha b hb
        have h2 := hmax b (List.mem_cons_of_mem _ hb) hbd
        exact absurd h1 (not_lt.mpr h2)
      rw [this]
      rfl
    · have hih := ih hs' hmem'
        (fun b hb hbd => hmax b (List.mem_cons_of_mem _ hb) hbd)
      by_cases hak : a.fecha.key ≤ d.key
      · rw [List.filter_cons_of_pos (by simpa using hak)]
        rcases hfe : t.filter (fun r => decide (r.fecha.key ≤ d.key)) with _ | ⟨x, l⟩
        · rw [hfe] at hih; cases hih
        · rw [hfe, List.getLast?_cons_cons]
          rw [hfe] at hih
          exact hih
      · rw [List.filter_cons_of_neg (by simpa using hak)]
        exact hih

/-- If the prior-date fallback produces a rate, that rate comes from a
lookup row whose date is not in the future of the order date. -/
theorem buscarPrior_some (lcols : RateCols) (L : List LookupRow) (d : Date)
    (k : RateKey) (t : ℚ) (h : buscarPrior lcols L d k = some t) :
    ∃ row ∈ L, row.fecha.key ≤ d.key ∧ row.get k = some t := by
  rw [buscarPrior] at h
  rcases hg : (L.filter fun r => decide (r.fecha.key ≤ d.key)).getLast? with _ | r
  · rw [hg] at h; cases h
  · rw [hg] at h
    have hmem := List.mem_of_mem_getLast? hg
    have hf := List.mem_filter.mp hmem
    refine ⟨r, hf.1, by simpa using hf.2, ?_⟩
    by_cases hh : lcols.has k = true
    · simpa [hh] using h
    · simp [hh] at h

/-- A nonempty lookup keeps the detected rate columns. -/
theorem lookupCols_of_mem (cols : RateCols) (L : List LookupRow)
    (row : LookupRow) (hmem : row ∈ L) : lookupCols cols L = cols := by
  cases L with
  | nil => cases hmem
  | cons a l => rfl

/-- C1: Net debt (MONTO REAL DEUDA): both operands null gives null; exactly
one null treats the null as zero (net is the other amount, possibly
negated); both present gives the arithmetic difference. -/
theorem C1_monto_real_deuda_null_rule :
    calcular_monto_real_deuda none none = none ∧
    (∀ a : ℚ, calcular_monto_real_deuda (some a) none = some a) ∧
    (∀ b : ℚ, calcular_monto_real_deuda none (some b) = some (-b)) ∧
    (∀ a b : ℚ, calcular_monto_real_deuda (some a) (some b) = some (a - b)) := by
  refine ⟨rfl, fun a => ?_, fun b => ?_, fun a b => rfl⟩
  · simp [calcular_monto_real_deuda]
  · simp [calcular_monto_real_deuda]

/-- C3: when the normalized currency is `"USD"` and `MONTO OC` is non-null,
`MONTO OC USD` equals `MONTO OC` exactly, whatever the rate cell holds. -/
theorem C3_usd_never_divides (m : ℚ) (divisa : Option String) (tasa : Cell)
    (h : normDivisa divisa = "USD") :
    calcular_monto_oc_usd (some m) divisa tasa = some m := by
  simp [calcular_monto_oc_usd, h]

theorem C3_usd_never_divides_witness :
    normDivisa (some " usd ") = "USD" ∧
    calcular_monto_oc_usd (some 7) (some " usd ") (Cell.num 0) = some 7 :=
  ⟨by decide, C3_usd_never_divides 7 (some " usd ") (Cell.num 0) (by decide)⟩

/-- C5: fiscal year is a pure function of the order date: month > 8 gives
`"Y-(Y+1)"`, month ≤ 8 gives `"(Y-1)-Y"` (so month 8 falls in the earlier
fiscal year and month 9 opens the next one), and a null/unparseable date
gives null. -/
theorem C5_ano_fiscal (y : Int) (m d : Nat) :
    (m > 8 →
      calcular_ano_fiscal (some ⟨y, m, d⟩) =
        some (toString y ++ "-" ++ toString (y + 1))) ∧
    (m ≤ 8 →
      calcular_ano_fiscal (some ⟨y, m, d⟩) =
        some (toString (y - 1) ++ "-" ++ toString y)) ∧
    (m = 8 →
      calcular_ano_fiscal (some ⟨y, m, d⟩) =
        some (toString (y - 1) ++ "-" ++ toString y)) ∧
    (m = 9 →
      calcular_ano_fiscal (some ⟨y, m, d⟩) =
        some (toString y ++ "-" ++ toString (y + 1))) ∧
    calcular_ano_fiscal none = none := by
  refine ⟨fun h => ?_, fun h => ?_, fun h => ?_, fun h => ?_, rfl⟩
  · simp [calcular_ano_fiscal, h]
  · simp [calcular_ano_fiscal, Nat.not_lt.mpr h]
  · subst h; simp [calcular_ano_fiscal]
  · subst h; simp [calcular_ano_fiscal]

theorem C5_ano_fiscal_witness :
    calcular_ano_fiscal (some ⟨2025, 9, 15⟩) = some "2025-2026" ∧
    calcular_ano_fiscal (some ⟨2025, 8, 15⟩) = some "2024-2025" :=
  ⟨(C5_ano_fiscal 2025 9 15).2.2.2.1 rfl,
   (C5_ano_fiscal 2025 8 15).2.2.1 rfl⟩


/-- Unfolding equation of `buscarPrior`. -/
theorem buscarPrior_eq (lcols : RateCols) (lookup : List LookupRow)
    (d : Date) (k : RateKey) :
    buscarPrior lcols lookup d k =
      match (lookup.filter fun r => decide (r.fecha.key ≤ d.key)).getLast? with
      | some r => if lcols.has k then r.get k else none
      | none => none := rfl

/-- C2: Rate Resolver: a null/unparseable order date resolves to null; an
exact-date row with a non-null rate in the resolved currency column is
returned; otherwise the chronologically last row dated ≤ the order date
supplies the rate (null if its rate cell is null); with no such row the
result is null; no future-dated rate is ever used; and the spec's concrete
VES examples hold. -/
theorem C2_rate_resolver (cols : RateCols) (records : List RateRecord)
    (divisa : Option String) :
    buscar_tasa_con_fallback cols (buildLookup records) none divisa = none ∧
    (∀ (d : Date) (k : RateKey) (row : LookupRow) (t : ℚ),
      (buildLookup records).Pairwise (fun a b => a.fecha.key < b.fecha.key) →
      row ∈ buildLookup records → row.fecha = d →
      colTasaKey cols divisa = some k → cols.has k = true →
      row.get k = some t →
      buscar_tasa_con_fallback cols (buildLookup records) (some d) divisa
        = some t) ∧
    (∀ (d : Date) (k : RateKey) (row : LookupRow),
      (buildLookup records).Pairwise (fun a b => a.fecha.key < b.fecha.key) →
      row ∈ buildLookup records → row.fecha.key ≤ d.key →
      (∀ b ∈ buildLookup records, b.fecha.key ≤ d.key →
        b.fecha.key ≤ row.fecha.key) →
      (∀ b ∈ buildLookup records, b.fecha ≠ d) →
      colTasaKey cols divisa = some k → cols.has k = true →
      buscar_tasa_con_fallback cols (buildLookup records) (some d) divisa
        = row.get k) ∧
    (∀ d : Date,
      (∀ b ∈ buildLookup records, ¬ b.fecha.key ≤ d.key) →
      buscar_tasa_con_fallback cols (buildLookup records) (some d) divisa
        = none) ∧
    (∀ (d : Date) (t : ℚ),
      buscar_tasa_con_fallback cols (buildLookup records) (some d) divisa
        = some t →
      ∃ row ∈ buildLookup records, row.fecha.key ≤ d.key ∧
        ∃ k, row.get k = some t) ∧
    (buscar_tasa_con_fallback rateColsEx (buildLookup rateRecsEx)
        (some ⟨2026, 1, 5⟩) (some "VES") = some 50 ∧
      buscar_tasa_con_fallback rateColsEx (buildLookup rateRecsEx)
        (some ⟨2026, 1, 10⟩) (some "VES") = some 55 ∧
      buscar_tasa_con_fallback rateColsEx (buildLookup rateRecsEx)
        (some ⟨2025, 12, 1⟩) (some "VES") = none) := by
  refine ⟨rfl, ?_, ?_, ?_, ?_, by decide, by decide, by decide⟩
  · -- exact-date match
    intro d k row t hs hmem hd hck hhas hget
    have hlc := lookupCols_of_mem cols _ row hmem
    rw [buscar_tasa_con_fallback]
    rw [hlc, hck, filter_exact_eq_singleton _ d row hs hmem hd]
    simp [hhas, hget]
  · -- prior-date fallback
    intro d k row hs hmem hle hmax hnoex hck hhas
    have hlc := lookupCols_of_mem cols _ row hmem
    have hfe : ((buildLookup records).filter fun r => decide (r.fecha = d))
        = [] := by
      refine List.filter_eq_nil_iff.mpr fun b hb => ?_
      simpa using hnoex b hb
    rw [buscar_tasa_con_fallback]
    rw [hlc, hck, hfe]
    simp only []
    rw [buscarPrior_eq]
    rw [filter_prior_getLast _ d row hs hmem hle hmax]
    simp [hhas]
  · -- no prior date at all
    intro d hnone
    have hfe : ((buildLookup records).filter fun r => decide (r.fecha = d))
        = [] := by
      refine List.filter_eq_nil_iff.mpr fun b hb => ?_
      simp only [decide_eq_true_eq]
      intro hbd
      exact hnone b hb (by rw [hbd])
    have hfp : ((buildLookup records).filter
        fun r => decide (r.fecha.key ≤ d.key)) = [] := by
      refine List.filter_eq_nil_iff.mpr fun b hb => ?_
      simpa using hnone b hb
    rw [buscar_tasa_con_fallback]
    rcases hck : colTasaKey (lookupCols cols (buildLookup records)) divisa
        with _ | k
    · rfl
    · rw [hfe]
      simp only []
      rw [buscarPrior_eq, hfp]
      rfl
  · -- no future-dated rate is ever used
    intro d t h
    rw [buscar_tasa_con_fallback] at h
    rcases hck : colTasaKey (lookupCols cols (buildLookup records)) divisa
        with _ | k
    · rw [hck] at h; cases h
    · rw [hck] at h
      rcases hfe : ((buildLookup records).filter
          fun r => decide (r.fecha = d)) with _ | ⟨r, rest⟩
      · rw [hfe] at h
        simp only [] at h
        obtain ⟨row, hm, hle, hg⟩ := buscarPrior_some _ _ _ _ _ h
        exact ⟨row, hm, hle, k, hg⟩
      · rw [hfe] at h
        simp only [] at h
        have hrmem : r ∈ (buildLookup records).filter
            fun rr => decide (rr.fecha = d) := by
          rw [hfe]; exact List.mem_cons_self r rest
        have hf := List.mem_filter.mp hrmem
        have hrd : r.fecha = d := by simpa using hf.2
        by_cases hh : (lookupCols cols (buildLookup records)).has k = true
        · rw [if_pos hh] at h
          rcases hrk : r.get k with _ | t0
          · rw [hrk] at h
            simp only [] at h
            obtain ⟨row, hm, hle, hg⟩ := buscarPrior_some _ _ _ _ _ h
            exact ⟨row, hm, hle, k, hg⟩
          · rw [hrk] at h
            simp only [] at h
            refine ⟨r, hf.1, by rw [hrd], k, ?_⟩
            rw [hrk, h]
        · rw [if_neg hh] at h
          obtain ⟨row, hm, hle, hg⟩ := buscarPrior_some _ _ _ _ _ h
          exact ⟨row, hm, hle, k, hg⟩

theorem C2_rate_resolver_witness :
    buscar_tasa_con_fallback rateColsEx (buildLookup rateRecsEx)
      (some ⟨2026, 1, 10⟩) (some "VES") = some 55 :=
  (C2_rate_resolver rateColsEx rateRecsEx (some "VES")).2.1
    ⟨2026, 1, 10⟩ RateKey.ves ⟨⟨2026, 1, 10⟩, some 55, none, none, none⟩ 55
    (by decide) (by decide) rfl (by decide) (by decide) rfl

/-- The two USD-conversion stages share one conversion function. -/
theorem monto_asociado_usd_eq :
    calcular_monto_oc_asociado_usd = calcular_monto_oc_usd := rfl

/-- Core of the guarded conversion: for a VES/COP/EUR row the division is
guarded by the null/zero checks on the rate. -/
theorem monto_usd_conv (m : ℚ) (divisa : Option String) (tasa : Cell)
    (hIn : normDivisa divisa = "VES" ∨ normDivisa divisa = "COP" ∨
      normDivisa divisa = "EUR") :
    ((tasa.toNumeric = none ∨ tasa.toNumeric = some 0) →
      calcular_monto_oc_usd (some m) divisa tasa = none) ∧
    (∀ t : ℚ, tasa.toNumeric = some t → t ≠ 0 →
      calcular_monto_oc_usd (some m) divisa tasa = some (m / t)) := by
  have hUSD : ¬ normDivisa divisa = "USD" := by
    rcases hIn with h | h | h <;> rw [h] <;> decide
  constructor
  · intro hn
    cases tasa with
    | null =>
      simp only [calcular_monto_oc_usd, Cell.isna, Bool.true_or]
      rw [if_neg hUSD, if_pos hIn]
      simp
    | num q =>
      rcases hn with hn | hn
      · cases hn
      · have hq : q = 0 := by
          simpa [Cell.toNumeric] using hn
        subst hq
        simp only [calcular_monto_oc_usd]
        rw [if_neg hUSD, if_pos hIn]
        simp [Cell.isna, Cell.pyEqZero]
    | text s =>
      simp only [calcular_monto_oc_usd]
      rw [if_neg hUSD, if_pos hIn]
      rcases hn with hn | hn <;>
        simp_all [Cell.isna, Cell.pyEqZero, Cell.toNumeric]
  · intro t ht htne
    cases tasa with
    | null => cases ht
    | num q =>
      have hq : q = t := by simpa [Cell.toNumeric] using ht
      subst hq
      simp only [calcular_monto_oc_usd]
      rw [if_neg hUSD, if_pos hIn]
      simp [Cell.isna, Cell.pyEqZero, Cell.toNumeric, htne]
    | text s =>
      simp only [calcular_monto_oc_usd]
      rw [if_neg hUSD, if_pos hIn]
      have hps : parseRat s = some t := by simpa [Cell.toNumeric] using ht
      simp [Cell.isna, Cell.pyEqZero, Cell.toNumeric, hps, htne]

/-- C4: guarded USD conversion: for a VES/COP/EUR row, a null, zero, or
non-numeric rate makes the derived USD amount null in both the
order-amount and the associated-amount stage (no exception, no division by
zero); a usable non-zero rate divides the local amount. -/
theorem C4_conversion_skip (m : ℚ) (divisa : Option String) (tasa : Cell)
    (hIn : normDivisa divisa = "VES" ∨ normDivisa divisa = "COP" ∨
      normDivisa divisa = "EUR") :
    ((tasa.toNumeric = none ∨ tasa.toNumeric = some 0) →
      calcular_monto_oc_usd (some m) divisa tasa = none ∧
      calcular_monto_oc_asociado_usd (some m) divisa tasa = none) ∧
    (∀ t : ℚ, tasa.toNumeric = some t → t ≠ 0 →
      calcular_monto_oc_usd (some m) divisa tasa = some (m / t) ∧
      calcular_monto_oc_asociado_usd (some m) divisa tasa = some (m / t)) := by
  have h := monto_usd_conv m divisa tasa hIn
  rw [monto_asociado_usd_eq]
  exact ⟨fun hn => ⟨h.1 hn, h.1 hn⟩,
    fun t ht htne => ⟨h.2 t ht htne, h.2 t ht htne⟩⟩

theorem C4_conversion_skip_witness :
    (calcular_monto_oc_usd (some 10) (some "VES") (Cell.num 0) = none ∧
      calcular_monto_oc_asociado_usd (some 10) (some "VES") (Cell.num 0)
        = none) ∧
    (calcular_monto_oc_usd (some 10) (some "VES") (Cell.num 4)
        = some (10 / 4) ∧
      calcular_monto_oc_asociado_usd (some 10) (some "VES") (Cell.num 4)
        = some (10 / 4)) :=
  ⟨(C4_conversion_skip 10 (some "VES") (Cell.num 0)
      (Or.inl (by decide))).1 (Or.inr (by decide)),
   (C4_conversion_skip 10 (some "VES") (Cell.num 4)
      (Or.inl (by decide))).2 4 rfl (by norm_num)⟩

/-- C6: schema validation of the orders table: the check passes exactly
when the normalised column-name set equals the expected 16-column schema;
on any mismatch the reported missing/unexpected column sets are the two
set differences, the load raises, and no enrichment stage runs. -/
theorem C6_schema_validation (cols : List String) :
    (verificar_columnas cols = true ↔
      normColSet cols = columnasEsperadasSet) ∧
    (normColSet cols ≠ columnasEsperadasSet →
      columnas_faltantes cols = columnasEsperadasSet \ normColSet cols ∧
      columnas_extras cols = normColSet cols \ columnasEsperadasSet ∧
      leer_ordenes_compra_validacion cols =
        Except.error "El archivo no tiene las columnas esperadas" ∧
      ∀ (areasDict : List (String × String)) (rcols : RateCols)
        (lookup : List LookupRow) (t : Table),
        procesar_archivos cols areasDict rcols lookup t =
          Except.error "El archivo no tiene las columnas esperadas") := by
  constructor
  · simp [verificar_columnas]
  · intro hne
    have hv : verificar_columnas cols = false := by
      simp [verificar_columnas, hne]
    refine ⟨rfl, rfl, ?_, ?_⟩
    · simp [leer_ordenes_compra_validacion, hv]
    · intro areasDict rcols lookup t
      have hleer : leer_ordenes_compra_validacion cols =
          Except.error "El archivo no tiene las columnas esperadas" := by
        simp [leer_ordenes_compra_validacion, hv]
      simp only [procesar_archivos, hleer]
      rfl

theorem C6_schema_validation_witness :
    leer_ordenes_compra_validacion ["NUMERO_OC"] =
      Except.error "El archivo no tiene las columnas esperadas" :=
  ((C6_schema_validation ["NUMERO_OC"]).2 (by decide)).2.2.1

/-- Bind of a successful `Except` step. -/
theorem except_bind_ok {ε α β : Type} (a : α) (f : α → Except ε β) :
    (Except.ok a >>= f : Except ε β) = f a := rfl

/-- Success shape of the fiscal-year stage. -/
theorem agregar_ano_fiscal_ok (t : Table) (h : t.hasFechaOrden = true) :
    agregar_ano_fiscal t =
      Except.ok { t with rows := t.rows.map fila_ano_fiscal } := by
  simp [agregar_ano_fiscal, h]

/-- Success shape of the rate stage when `DIVISA` is present. -/
theorem agregar_columna_tasa_ok (cols : RateCols) (lookup : List LookupRow)
    (t : Table) (hD : t.hasDivisa = true) (hF : t.hasFechaOrden = true) :
    agregar_columna_tasa cols lookup t =
      Except.ok { t with
        hasTasa := true,
        rows := t.rows.map (fila_tasa cols lookup) } := by
  simp [agregar_columna_tasa, hD, hF]

/-- An empty area directory never resolves an area. -/
theorem buscar_area_nil (sol : Option String) : buscar_area [] sol = none := by
  cases sol <;> rfl

/-- Success shape of the area stage: with an empty directory the lookup
also returns null everywhere, so both branches produce the same rows. -/
theorem agregar_columna_area_ok (areasDict : List (String × String))
    (t : Table) (h : t.hasSolicitante = true) :
    agregar_columna_area areasDict t =
      Except.ok { t with rows := t.rows.map (fila_area areasDict) } := by
  by_cases hd : areasDict.isEmpty = true
  · have hnil : areasDict = [] := by simpa using hd
    subst hnil
    simp [agregar_columna_area, h, fila_area, fila_area_nula,
      buscar_area_nil]
  · simp [agregar_columna_area, h, hd]

/-- Success shape of the order-amount stage. -/
theorem agregar_montos_oc_ok (t : Table) (hP : t.hasPriceOverride = true)
    (hI : t.hasImporte = true) (hD : t.hasDivisa = true)
    (hT : t.hasTasa = true) :
    agregar_montos_oc t =
      Except.ok { t with
        hasMontoOCUSD := true,
        rows := t.rows.map fila_montos_oc } := by
  simp [agregar_montos_oc, hP, hI, hD, hT]

/-- Success shape of the associated-amount stage. -/
theorem agregar_montos_oc_asociado_ok (t : Table)
    (hP : t.hasPriceOverride = true) (hA : t.hasImporteAsociado = true)
    (hD : t.hasDivisa = true) (hT : t.hasTasa = true) :
    agregar_montos_oc_asociado t =
      Except.ok { t with
        hasMontoOCAsociadoUSD := true,
        rows := t.rows.map fila_montos_oc_asociado } := by
  simp [agregar_montos_oc_asociado, hP, hA, hD, hT]

/-- Success shape of the net-debt stage. -/
theorem agregar_monto_real_deuda_ok (t : Table)
    (hU : t.hasMontoOCUSD = true) (hAU : t.hasMontoOCAsociadoUSD = true) :
    agregar_monto_real_deuda t =
      Except.ok { t with rows := t.rows.map fila_monto_real_deuda } := by
  simp [agregar_monto_real_deuda, hU, hAU]

/-- With all structural columns present, the post-filter stage chain
succeeds and its result is the row-wise composition of the per-row
functions. -/
theorem etapas_post_filtro_ok (areasDict : List (String × String))
    (cols : RateCols) (lookup : List LookupRow) (t1 : Table)
    (hD : t1.hasDivisa = true) (hF : t1.hasFechaOrden = true)
    (hS : t1.hasSolicitante = true) (hP : t1.hasPriceOverride = true)
    (hI : t1.hasImporte = true) (hA : t1.hasImporteAsociado = true) :
    etapas_post_filtro areasDict cols lookup t1 =
      Except.ok { t1 with
        hasTasa := true,
        hasMontoOCUSD := true,
        hasMontoOCAsociadoUSD := true,
        rows := (((((t1.rows.map fila_ano_fiscal).map
          (fila_tasa cols lookup)).map
          (fila_area areasDict)).map fila_montos_oc).map
          fila_montos_oc_asociado).map fila_monto_real_deuda } := by
  simp only [etapas_post_filtro]
  rw [agregar_ano_fiscal_ok t1 hF]
  simp only [except_bind_ok]
  rw [agregar_columna_tasa_ok cols lookup _ (by exact hD) (by exact hF)]
  simp only [except_bind_ok]
  rw [agregar_columna_area_ok areasDict _ (by exact hS)]
  simp only [except_bind_ok]
  rw [agregar_montos_oc_ok _ (by exact hP) (by exact hI) (by exact hD)
    (by rfl)]
  simp only [except_bind_ok]
  rw [agregar_montos_oc_asociado_ok _ (by exact hP) (by exact hA)
    (by exact hD) (by rfl)]
  simp only [except_bind_ok]
  rw [agregar_monto_real_deuda_ok _ (by rfl) (by rfl)]

/-- C7: after the closed-order filter, with all structural columns
present, every enrichment stage completes without raising, and the result
has the same row count, the same row order, and the same source cells as
the post-filter input (per-row problems only null the derived fields). -/
theorem C7_per_row_degradation (areasDict : List (String × String))
    (cols : RateCols) (lookup : List LookupRow) (t1 : Table)
    (hD : t1.hasDivisa = true) (hF : t1.hasFechaOrden = true)
    (hS : t1.hasSolicitante = true) (hP : t1.hasPriceOverride = true)
    (hI : t1.hasImporte = true) (hA : t1.hasImporteAsociado = true) :
    ∃ t' : Table,
      etapas_post_filtro areasDict cols lookup t1 = Except.ok t' ∧
      t'.rows.length = t1.rows.length ∧
      t'.rows.map Row.source = t1.rows.map Row.source := by
  refine ⟨_, etapas_post_filtro_ok areasDict cols lookup t1 hD hF hS hP hI hA,
    ?_, ?_⟩
  · simp
  · simp only [List.map_map]
    rfl

theorem C7_per_row_degradation_witness :
    ∃ t' : Table,
      etapas_post_filtro [] rateColsEx (buildLookup rateRecsEx) tableEx
        = Except.ok t' ∧
      t'.rows.length = tableEx.rows.length ∧
      t'.rows.map Row.source = tableEx.rows.map Row.source :=
  C7_per_row_degradation [] rateColsEx (buildLookup rateRecsEx) tableEx
    rfl rfl rfl rfl rfl rfl

/-- C8: the rate-assignment stage tolerates a missing `DIVISA` column: it
returns (without error) the table with an all-null `TASA` column and every
other column unchanged, while the fiscal-year and order-amount stages
raise on a missing required column. -/
theorem C8_tasa_sin_divisa (cols : RateCols) (lookup : List LookupRow)
    (t : Table) (h : t.hasDivisa = false) :
    (agregar_columna_tasa cols lookup t = Except.ok { t with
        hasTasa := true, rows := t.rows.map fila_tasa_nula }) ∧
    (∀ r ∈ t.rows.map fila_tasa_nula, r.tasa = Cell.null) ∧
    ((t.rows.map fila_tasa_nula).map Row.source = t.rows.map Row.source) ∧
    (∀ t2 : Table, t2.hasFechaOrden = false →
      agregar_ano_fiscal t2 =
        Except.error "La columna FECHA_ORDEN no existe en el DataFrame") ∧
    (∀ t3 : Table, t3.hasImporte = false →
      agregar_montos_oc t3 =
        Except.error "Faltan las siguientes columnas (montos OC)") := by
  refine ⟨by simp [agregar_columna_tasa, h], ?_, ?_, ?_, ?_⟩
  · intro r hr
    obtain ⟨r0, _, rfl⟩ := List.mem_map.mp hr
    rfl
  · simp only [List.map_map]
    rfl
  · intro t2 h2
    simp [agregar_ano_fiscal, h2]
  · intro t3 h3
    simp [agregar_montos_oc, h3]

theorem C8_tasa_sin_divisa_witness :
    agregar_columna_tasa rateColsEx (buildLookup rateRecsEx) tableSinDivisa
      = Except.ok { tableSinDivisa with
          hasTasa := true,
          rows := tableSinDivisa.rows.map fila_tasa_nula } :=
  (C8_tasa_sin_divisa rateColsEx (buildLookup rateRecsEx) tableSinDivisa
    rfl).1

/-- Success shape of the closed-order filter. -/
theorem filtrar_cerrados_ok (t : Table) (he : t.hasEstadoCierre = true) :
    filtrar_cerrados t =
      Except.ok { t with rows := t.rows.filter keepRow } := by
  simp [filtrar_cerrados, he]

/-- C9: the closed-order filter is idempotent: a successful filtering
returns the kept rows in order, and filtering the result again changes
nothing. -/
theorem C9_filtrar_idempotente (t t' : Table)
    (h : filtrar_cerrados t = Except.ok t') :
    filtrar_cerrados t' = Except.ok t' ∧
    t'.rows = t.rows.filter keepRow := by
  by_cases he : t.hasEstadoCierre = true
  · rw [filtrar_cerrados_ok t he] at h
    have ht' := Except.ok.inj h
    have hr : t'.rows = t.rows.filter keepRow := by rw [← ht']
    have he' : t'.hasEstadoCierre = true := by
      rw [← ht']
      exact he
    have hidem : t'.rows.filter keepRow = t'.rows := by
      rw [hr]
      simp [List.filter_filter]
    refine ⟨?_, hr⟩
    rw [filtrar_cerrados_ok t' he', hidem]
  · rw [filtrar_cerrados, if_neg he] at h
    cases h

theorem C9_filtrar_idempotente_witness :
    filtrar_cerrados tableExFiltrado = Except.ok tableExFiltrado ∧
    tableExFiltrado.rows = tableEx.rows.filter keepRow :=
  C9_filtrar_idempotente tableEx tableExFiltrado (by rfl)

/-- C10: rows with a missing closure state survive the filter (a null
stringifies to `"nan"`, never `"CERRADO"` after normalisation), rows whose
closure state normalises to `"CERRADO"` (case/whitespace variants) are
dropped, and every surviving row's normalised state differs from
`"CERRADO"`. -/
theorem C10_nulo_sobrevive (t t' : Table)
    (h : filtrar_cerrados t = Except.ok t') :
    (∀ r ∈ t.rows, r.estadoCierre = Cell.null → r ∈ t'.rows) ∧
    (∀ r ∈ t.rows, normCierre r.estadoCierre = "CERRADO" → r ∉ t'.rows) ∧
    (∀ r ∈ t'.rows, normCierre r.estadoCierre ≠ "CERRADO") := by
  rw [filtrar_cerrados] at h
  by_cases he : t.hasEstadoCierre = true
  · rw [if_pos he] at h
    have ht' := Except.ok.inj h
    have hrows : t'.rows = t.rows.filter keepRow := by rw [← ht']
    refine ⟨?_, ?_, ?_⟩
    · intro r hr hn
      rw [hrows]
      refine List.mem_filter.mpr ⟨hr, ?_⟩
      simp only [keepRow, hn]
      decide
    · intro r hr hcerr
      rw [hrows]
      intro hmem
      have hk := (List.mem_filter.mp hmem).2
      simp [keepRow, hcerr] at hk
    · intro r hr
      rw [hrows] at hr
      have hk := (List.mem_filter.mp hr).2
      simpa [keepRow] using hk
  · rw [if_neg he] at h
    cases h

theorem C10_nulo_sobrevive_witness :
    rowEx3 ∈ tableExFiltrado.rows ∧ rowEx2 ∉ tableExFiltrado.rows :=
  ⟨(C10_nulo_sobrevive tableEx tableExFiltrado (by rfl)).1 rowEx3
      (by decide) rfl,
   (C10_nulo_sobrevive tableEx tableExFiltrado (by rfl)).2.1 rowEx2
      (by decide) (by decide)⟩

end Venezuela
